import Mathlib

/-!
Verification development for the `find-me-nest` repository.

The repository consists of two sequential Python pipelines:
  * `fetch_offers.py`  — discovery: lists candidate offers, deduplicates
    against identifiers already recorded in the spreadsheet sink, and emits
    a work list of slugs;
  * `parse_offers.py`  — per-offer processing: nearest-metro-station lookup
    (Haversine), a 1 km proximity threshold, optional travel-time
    enrichment, record normalisation, and an append to the spreadsheet.

This file gives a shallow embedding of those parts of the code in Lean.
Python floats are modelled as real numbers; Python exceptions are modelled
with `Except String`; the external collaborators (Google Maps client,
Python's built-in `float` parser, the LLM summariser, the spreadsheet)
are modelled as explicit parameters / explicit state.  The station table
`warsaw_metro_stations` (a dict from station name to a coordinate pair,
iterated in insertion order) is modelled as a `List (String × ℝ × ℝ)`
parameter.
-/

namespace FindMeNest

/-- Model of Python's `math.radians`: degrees to radians, `x * π / 180`. -/
noncomputable def radians (x : ℝ) : ℝ := x * Real.pi / 180

/-- Model of Python's `math.atan2 y x`: the angle of the point `(x, y)`,
with the standard case split on the signs of the arguments
(`atan2 0 0 = 0`, as in CPython). -/
noncomputable def atan2 (y x : ℝ) : ℝ :=
  if 0 < x then Real.arctan (y / x)
  else if x < 0 then
    (if 0 ≤ y then Real.arctan (y / x) + Real.pi
     else Real.arctan (y / x) - Real.pi)
  else if 0 < y then Real.pi / 2
  else if y < 0 then -(Real.pi / 2)
  else 0

/-- Embedding of `calculate_distance` (`parse_offers.py`, lines 54-66):
Haversine distance in kilometres with mean Earth radius `R = 6371`. -/
noncomputable def calculate_distance (lat1 lon1 lat2 lon2 : ℝ) : ℝ :=
  let R : ℝ := 6371
  let lat1r := radians lat1
  let lon1r := radians lon1
  let lat2r := radians lat2
  let lon2r := radians lon2
  let dlat := lat2r - lat1r
  let dlon := lon2r - lon1r
  let a := Real.sin (dlat / 2) ^ 2 +
    Real.cos lat1r * Real.cos lat2r * Real.sin (dlon / 2) ^ 2
  let c := 2 * atan2 (Real.sqrt a) (Real.sqrt (1 - a))
  R * c

/-- Distance from the query point `(lat, lon)` to a station table entry
`(name, station_lat, station_lon)`. -/
noncomputable def station_distance (lat lon : ℝ) (e : String × ℝ × ℝ) : ℝ :=
  calculate_distance lat lon e.2.1 e.2.2

/-- The scanning loop of `find_closest_metro_station` (lines 74-78).
The Python loop starts with `closest_station = None` and
`min_distance = float("inf")`; since every Haversine value is a finite
real, the first iteration always replaces the initial state, so the
initial state is modelled by the accumulator `none` and a populated
state `(closest_station, min_distance)` by `some`.  The update uses the
source's strict comparison `distance < min_distance`. -/
noncomputable def find_closest_aux (lat lon : ℝ) :
    List (String × ℝ × ℝ) → Option (String × ℝ) → Option (String × ℝ)
  | [], acc => acc
  | (station, station_lat, station_lon) :: rest, acc =>
      let distance := calculate_distance lat lon station_lat station_lon
      match acc with
      | none => find_closest_aux lat lon rest (some (station, distance))
      | some (closest_station, min_distance) =>
          if distance < min_distance then
            find_closest_aux lat lon rest (some (station, distance))
          else
            find_closest_aux lat lon rest (some (closest_station, min_distance))

/-- Embedding of `find_closest_metro_station` (lines 69-80).  The Python
function returns the station name, or the value `None` (modelled `none`)
when the table is empty; it contains no raise and cannot fail. -/
noncomputable def find_closest_metro_station
    (stations : List (String × ℝ × ℝ)) (lat lon : ℝ) : Option String :=
  (find_closest_aux lat lon stations none).map (fun p => p.1)

/-- Model of the dict lookup `warsaw_metro_stations[name]`: first entry
with the given key (dict keys are unique, so "first" is exact). -/
def lookup_station : List (String × ℝ × ℝ) → String → Option (ℝ × ℝ)
  | [], _ => none
  | (station, station_lat, station_lon) :: rest, name =>
      if station = name then some (station_lat, station_lon)
      else lookup_station rest name

/-- Embedding of `should_process_offer` (lines 166-176).  It returns the
tuple `(distance <= 1.0, closest_station, station_coords)`.  When the
station table is empty, `find_closest_metro_station` returns `None` and
the dict lookup `warsaw_metro_stations[None]` raises a `KeyError`
(modelled as `.error "KeyError"`): there is no returned value on that
path. -/
noncomputable def should_process_offer
    (stations : List (String × ℝ × ℝ)) (lat lon : ℝ) :
    Except String (Bool × String × ℝ × ℝ) :=
  match find_closest_metro_station stations lat lon with
  | none => .error "KeyError"
  | some closest_station =>
    match lookup_station stations closest_station with
    | none => .error "KeyError"
    | some (station_lat, station_lon) =>
      let distance := calculate_distance lat lon station_lat station_lon
      .ok (decide (distance ≤ 1), closest_station, station_lat, station_lon)

/-- The outcome of the Google Maps distance-matrix pair of calls made by
`get_travel_times` for one origin/destination pair: either the client
raised (`exn`), or it answered with a status and a duration text for the
walking call and for the transit call. -/
inductive TravelOutcome where
  | exn : TravelOutcome
  | ok (walkStatus walkDuration transitStatus transitDuration : String) :
      TravelOutcome

/-- Embedding of `get_travel_times` (lines 83-119): each leg's duration is
kept only when that leg's status is `"OK"`, otherwise that leg degrades
to `"N/A"` independently of the other; any raised exception degrades
both to `"N/A"`. -/
def get_travel_times : TravelOutcome → String × String
  | .exn => ("N/A", "N/A")
  | .ok ws wd ts td =>
      ((if ws = "OK" then wd else "N/A"), (if ts = "OK" then td else "N/A"))

/-- Coordinates of an Otodom ad (`ad["location"]["coordinates"]`). -/
structure Coordinates where
  latitude : ℝ
  longitude : ℝ

/-- A named address component (`{"name": ...}`). -/
structure NamePart where
  name : String

/-- Address of an ad (`ad["location"]["address"]`). -/
structure Address where
  city : NamePart
  district : NamePart
  street : NamePart

/-- Location of an ad (`ad["location"]`). -/
structure Location where
  coordinates : Coordinates
  address : Address

/-- One entry of `ad["characteristics"]`; `value` is the raw string that
`float(...)` is applied to for the price and rent entries. -/
structure Characteristic where
  key : String
  label : String
  localizedValue : String
  value : String

/-- The fields of `data["props"]["pageProps"]["ad"]` that
`extract_offer_data` reads. -/
structure Ad where
  location : Location
  title : String
  characteristics : List Characteristic
  features : List String
  advertiserType : String
  createdAt : String
  modifiedAt : String
  description : String
  url : String
  id : Nat
  slug : String

/-- The normalized offer record returned by `extract_offer_data`
(lines 291-307). -/
structure NormalizedOffer where
  closest_metro : String
  base_cost : ℝ
  total_cost : ℝ
  full_url : String
  area : String
  address : String
  walking_time : String
  transit_time : String
  description : String
  rent : ℝ
  offer_id : Nat
  slug : String
  available_from : String
  total_monthly_cost : String
  key_advantages : String

/-- The `description_parts` list built in the threshold-met branch of
`extract_offer_data` (lines 204-246), joined with newlines. -/
def comprehensive_description_of (ad : Ad) (closest_station : String)
    (walking_time transit_time : String) : String :=
  String.intercalate "\n"
    (["Title: " ++ ad.title,
      "Location: " ++ ad.location.address.city.name ++ ", " ++
        ad.location.address.district.name,
      "Address: " ++ ad.location.address.street.name,
      "Closest Metro: " ++ closest_station,
      "Walking time from metro: " ++ walking_time,
      "Transit time from metro: " ++ transit_time,
      "\nProperty Details:"]
     ++ ((ad.characteristics.filter
            (fun c => !(["price", "rent", "m"].contains c.key))).map
          (fun c => "- " ++ c.label ++ ": " ++ c.localizedValue))
     ++ (if ad.features = [] then []
         else "\nFeatures:" :: ad.features.map (fun f => "- " ++ f))
     ++ ["\nAdditional Information:",
         "- Advertiser Type: " ++ ad.advertiserType,
         "- Created: " ++ ad.createdAt,
         "- Modified: " ++ ad.modifiedAt,
         "\nDescription:",
         ad.description])

/-- Embedding of `extract_offer_data` (lines 179-307).

External collaborators appear as parameters: `pyFloat` models Python's
built-in `float` applied to a characteristic's `value` string (`none`
models a raised `ValueError`); `summarize` models what
`analyze_offer_with_llm` would return for a description; `travel`
models the outcome of the Google Maps calls for this offer.

The result is the extraction outcome together with two instrumentation
flags `(travelCalled, summaryCalled)` recording which enrichment
providers were actually invoked — mirroring a call-count test double.
Note that the source hard-codes `llm_analysis` to the `"N/A"` sentinel
(the `analyze_offer_with_llm` call at line 249 is commented out), so
`summarize` is never applied.

Failure paths: an empty station table propagates the `KeyError` from
`should_process_offer`; a characteristics list with fewer than two
entries raises `IndexError` at lines 263-264; an unparsable cost string
raises `ValueError` inside `float`. -/
noncomputable def extract_offer_data (stations : List (String × ℝ × ℝ))
    (pyFloat : String → Option ℝ)
    (summarize : String → String × String × String)
    (travel : TravelOutcome) (ad : Ad) :
    Except String NormalizedOffer × Bool × Bool :=
  let lat := ad.location.coordinates.latitude
  let lon := ad.location.coordinates.longitude
  match should_process_offer stations lat lon with
  | .error e => (.error e, false, false)
  | .ok (should_process, closest_station, station_lat, station_lon) =>
    -- API-related fields default to "N/A" and are recomputed only in the
    -- threshold-met branch (lines 190-198).
    let times := if should_process then get_travel_times travel
                 else ("N/A", "N/A")
    let walking_time := times.1
    let transit_time := times.2
    let comprehensive_description :=
      if should_process then
        comprehensive_description_of ad closest_station walking_time
          transit_time
      else ad.description
    -- Lines 249-254: the LLM call is commented out in the source and
    -- `llm_analysis` is hard-coded to the sentinel for all three fields.
    let llm_analysis : String × String × String := ("N/A", "N/A", "N/A")
    let available_from := if should_process then llm_analysis.1 else "N/A"
    let total_monthly_cost := if should_process then llm_analysis.2.1
                              else "N/A"
    let key_advantages := if should_process then llm_analysis.2.2 else "N/A"
    let result : Except String NormalizedOffer :=
      match ad.characteristics.get? 0, ad.characteristics.get? 1 with
      | some c0, some c1 =>
        match pyFloat c0.value, pyFloat c1.value with
        | some base_cost, some rent =>
          let total_cost := base_cost + rent
          let area := match ad.characteristics.find?
              (fun f => f.label = "Powierzchnia") with
            | some f => f.value
            | none => "N/A"
          -- Lines 282-289: each address part is appended only when the
          -- string is truthy, i.e. non-empty.
          let address_parts :=
            (if ad.location.address.street.name ≠ "" then
              [ad.location.address.street.name] else []) ++
            (if ad.location.address.district.name ≠ "" then
              [ad.location.address.district.name] else []) ++
            (if ad.location.address.city.name ≠ "" then
              [ad.location.address.city.name] else [])
          let full_address := String.intercalate ", " address_parts
          .ok
            { closest_metro := closest_station
              base_cost := base_cost
              total_cost := total_cost
              full_url := ad.url
              area := area
              address := full_address
              walking_time := walking_time
              transit_time := transit_time
              description := comprehensive_description
              rent := rent
              offer_id := ad.id
              slug := ad.slug
              available_from := available_from
              total_monthly_cost := total_monthly_cost
              key_advantages := key_advantages }
        | _, _ => .error "ValueError"
      | _, _ => .error "IndexError"
    (result, should_process, false)

/-- One row of the spreadsheet sink, with the column layout produced by
`save_to_sheets` (lines 326-342): status marker, closest station, base
cost, total cost, url, area, address, walking time, transit time, rent,
offer id (column 11), slug, available-from, total-monthly-cost,
key-advantages. -/
structure SheetRow where
  status : String
  closest_metro : String
  base_cost : ℝ
  total_cost : ℝ
  full_url : String
  area : String
  address : String
  walking_time : String
  transit_time : String
  rent : ℝ
  offer_id : Nat
  slug : String
  available_from : String
  total_monthly_cost : String
  key_advantages : String

/-- The status marker computed by `save_to_sheets` (lines 321-323):
`meets_criteria = data["walking_time"] != "N/A"` and the marker is
`"GREEN"` when it holds, `"RED"` otherwise. -/
def sink_status (data : NormalizedOffer) : String :=
  let meets_criteria := data.walking_time != "N/A"
  if meets_criteria then "GREEN" else "RED"

/-- The row assembled by `save_to_sheets` (lines 326-342) for one record. -/
def sheet_row_of (data : NormalizedOffer) : SheetRow :=
  { status := sink_status data
    closest_metro := data.closest_metro
    base_cost := data.base_cost
    total_cost := data.total_cost
    full_url := data.full_url
    area := data.area
    address := data.address
    walking_time := data.walking_time
    transit_time := data.transit_time
    rent := data.rent
    offer_id := data.offer_id
    slug := data.slug
    available_from := data.available_from
    total_monthly_cost := data.total_monthly_cost
    key_advantages := data.key_advantages }

/-- Embedding of the state change of `save_to_sheets` (lines 310-356):
append one row for the record.  The cell background colouring applied
afterwards is purely visual and carries no further data, so it is not
modelled. -/
def save_to_sheets (data : NormalizedOffer) (sheet : List SheetRow) :
    List SheetRow :=
  sheet ++ [sheet_row_of data]

/-- One item of the discovery search results
(`data["props"]["pageProps"]["data"]["searchAds"]["items"]`), with the
fields `fetch_offers_list` reads. -/
structure SearchOffer where
  id : Nat
  slug : String
  deriving DecidableEq

/-- Outcome of the spreadsheet read attempted by `get_existing_offers`
(`fetch_offers.py`, lines 15-42): either the configuration and the
gspread calls all succeeded (`ok`), or `SPREADSHEET_ID` was missing
from the environment (lines 22-24, `missingConfig`), or one of the
gspread calls raised and the surrounding `except` caught it
(lines 40-42, `exn`). -/
inductive SheetRead where
  | ok : SheetRead
  | missingConfig : SheetRead
  | exn : SheetRead
  deriving DecidableEq

/-- Embedding of `get_existing_offers` (`fetch_offers.py`, lines 15-42).
On a successful read it returns the values of spreadsheet column 11
(the offer id), skipping the header row — the model's sheet holds only
data rows, and the spreadsheet API renders the numeric id cell as its
decimal string.  On the two failure paths the source prints an error
and returns the empty `set()`: when `SPREADSHEET_ID` is missing
(lines 22-24) and when the spreadsheet read raises (lines 40-42).  In
both cases deduplication is silently disabled for that discovery run. -/
def get_existing_offers (sheet : List SheetRow) : SheetRead → List String
  | .ok => sheet.map (fun r => toString r.offer_id)
  | .missingConfig => []
  | .exn => []

/-- The filtering step of `fetch_offers_list` (lines 79-82): keep offers
whose stringified id is not among the ids the sheet read recorded. -/
def new_offers (offers : List SearchOffer) (sheet : List SheetRow)
    (sheetRead : SheetRead) : List SearchOffer :=
  offers.filter
    (fun o =>
      !((get_existing_offers sheet sheetRead).contains (toString o.id)))

/-- Embedding of `fetch_offers_list` (lines 45-91): the emitted work list
is the slugs of the offers that survive deduplication.  The function's
own `except` path (lines 89-91) returns an empty work list — it emits
nothing, so only the successful-fetch path is modelled here; the sheet
read's outcome is the `sheetRead` parameter. -/
def fetch_offers_list (offers : List SearchOffer) (sheet : List SheetRow)
    (sheetRead : SheetRead) : List String :=
  (new_offers offers sheet sheetRead).map (fun o => o.slug)

/-! ### Concrete fixtures used by witnesses and counterexamples -/

/-- A one-station index placed at the origin. -/
def cexStations : List (String × ℝ × ℝ) := [("Centrum", 0, 0)]

/-- A test double for Python's `float` that parses every string to `0`. -/
def cexPyFloat : String → Option ℝ := fun _ => some 0

/-- A test double for the summarisation provider that returns visibly
non-sentinel values for all three fields. -/
def cexSummarize : String → String × String × String :=
  fun _ => ("May 1st", "4000 PLN", "Balcony")

/-- A concrete ad located exactly on the indexed station. -/
def cexAd : Ad :=
  { location :=
      { coordinates := { latitude := 0, longitude := 0 }
        address :=
          { city := { name := "Warszawa" }
            district := { name := "Srodmiescie" }
            street := { name := "Marszalkowska" } } }
    title := "Nice flat"
    characteristics :=
      [{ key := "price", label := "Price", localizedValue := "3000",
         value := "3000" },
       { key := "rent", label := "Rent", localizedValue := "500",
         value := "500" }]
    features := []
    advertiserType := "agency"
    createdAt := "2024-01-01"
    modifiedAt := "2024-01-02"
    description := "A flat near the metro."
    url := "https://example.org/offer/1"
    id := 101
    slug := "nice-flat-101" }

/-- The same ad moved to longitude 180, far outside the threshold. -/
def cexFarAd : Ad :=
  { cexAd with
      location :=
        { coordinates := { latitude := 0, longitude := 180 }
          address := cexAd.location.address } }

/-- The record `extract_offer_data` produces for `cexAd` on `cexStations`
when the walking leg fails (status `"ZERO_RESULTS"`) and the transit leg
succeeds with `"12 mins"`. -/
def cexNearRecordWalkFail : NormalizedOffer :=
  { closest_metro := "Centrum"
    base_cost := 0
    total_cost := 0 + 0
    full_url := "https://example.org/offer/1"
    area := "N/A"
    address := "Marszalkowska, Srodmiescie, Warszawa"
    walking_time := "N/A"
    transit_time := "12 mins"
    description := comprehensive_description_of cexAd "Centrum" "N/A" "12 mins"
    rent := 0
    offer_id := 101
    slug := "nice-flat-101"
    available_from := "N/A"
    total_monthly_cost := "N/A"
    key_advantages := "N/A" }

/-- The record `extract_offer_data` produces for `cexAd` on `cexStations`
when both travel legs succeed. -/
def cexNearRecordOK : NormalizedOffer :=
  { closest_metro := "Centrum"
    base_cost := 0
    total_cost := 0 + 0
    full_url := "https://example.org/offer/1"
    area := "N/A"
    address := "Marszalkowska, Srodmiescie, Warszawa"
    walking_time := "7 mins"
    transit_time := "12 mins"
    description := comprehensive_description_of cexAd "Centrum" "7 mins" "12 mins"
    rent := 0
    offer_id := 101
    slug := "nice-flat-101"
    available_from := "N/A"
    total_monthly_cost := "N/A"
    key_advantages := "N/A" }

/-- A simple already-normalized record with identifier `1`, used by the
deduplication witnesses. -/
def sinkRecordA : NormalizedOffer :=
  { closest_metro := "Centrum"
    base_cost := 3000
    total_cost := 3500
    full_url := "https://example.org/offer/a"
    area := "48"
    address := "Warszawa"
    walking_time := "5 mins"
    transit_time := "9 mins"
    description := "d"
    rent := 500
    offer_id := 1
    slug := "offer-a"
    available_from := "N/A"
    total_monthly_cost := "N/A"
    key_advantages := "N/A" }

/-! ### Arithmetic facts about the Haversine embedding -/

/-- The Haversine distance from a point to itself is `0`. -/
theorem calculate_distance_self (lat lon : ℝ) :
    calculate_distance lat lon lat lon = 0 := by
  simp [calculate_distance, atan2]

/-- The Haversine distance from `(0, 180)` to `(0, 0)` is half the
circumference, `6371 * π` km. -/
theorem calculate_distance_antipodal :
    calculate_distance 0 180 0 0 = 6371 * Real.pi := by
  have h0 : radians 0 = 0 := by simp [radians]
  have h180 : radians 180 = Real.pi := by
    simp only [radians]
    field_simp
  have hatan : atan2 1 0 = Real.pi / 2 := by
    simp [atan2]
  simp only [calculate_distance, h0, h180, zero_sub, sub_zero, zero_div,
    Real.sin_zero, ne_eq, OfNat.ofNat_ne_zero, not_false_eq_true, zero_pow,
    zero_add, Real.cos_zero, one_mul, neg_div, Real.sin_neg,
    Real.sin_pi_div_two, mul_one, neg_neg, one_pow, neg_one_sq, sub_self]
  rw [Real.sqrt_one, Real.sqrt_zero, hatan]
  ring

/-- The distance `(0, 180)` to `(0, 0)` exceeds the 1 km threshold. -/
theorem calculate_distance_antipodal_gt :
    ¬ calculate_distance 0 180 0 0 ≤ 1 := by
  rw [calculate_distance_antipodal]
  nlinarith [Real.pi_gt_three]

/-! ### The nearest-station scan (claim C1) -/

/-- Behaviour of the scanning loop from a populated accumulator
`(s0, m)`: either no later station beats `m` and the accumulator
survives, or the loop returns the first station that attains the strict
minimum (all earlier stations strictly farther, all later ones no
closer). -/
theorem find_closest_aux_some_spec (lat lon : ℝ)
    (l : List (String × ℝ × ℝ)) :
    ∀ (s0 : String) (m : ℝ),
      (find_closest_aux lat lon l (some (s0, m)) = some (s0, m) ∧
        ∀ e ∈ l, m ≤ station_distance lat lon e) ∨
      (∃ pre mid post, l = pre ++ mid :: post ∧
        find_closest_aux lat lon l (some (s0, m)) =
          some (mid.1, station_distance lat lon mid) ∧
        station_distance lat lon mid < m ∧
        (∀ e ∈ pre,
          station_distance lat lon mid < station_distance lat lon e) ∧
        (∀ e ∈ post,
          station_distance lat lon mid ≤ station_distance lat lon e)) := by
  induction l with
  | nil =>
    intro s0 m
    exact Or.inl ⟨rfl, by simp⟩
  | cons e rest ih =>
    intro s0 m
    obtain ⟨st, slat, slon⟩ := e
    have hsd : station_distance lat lon (st, slat, slon) =
        calculate_distance lat lon slat slon := rfl
    by_cases h : calculate_distance lat lon slat slon < m
    · have step : find_closest_aux lat lon ((st, slat, slon) :: rest)
          (some (s0, m)) =
          find_closest_aux lat lon rest
            (some (st, calculate_distance lat lon slat slon)) := by
        simp [find_closest_aux, h]
      rcases ih st (calculate_distance lat lon slat slon) with
        ⟨heq, hall⟩ | ⟨pre, mid, post, hl, heq, hlt, hpre, hpost⟩
      · refine Or.inr ⟨[], (st, slat, slon), rest, by simp,
          step.trans heq, ?_, by simp, ?_⟩
        · rw [hsd]; exact h
        · intro e he
          rw [hsd]
          exact hall e he
      · refine Or.inr ⟨(st, slat, slon) :: pre, mid, post, by simp [hl],
          step.trans heq, lt_trans hlt h, ?_, hpost⟩
        intro e he
        rcases List.mem_cons.mp he with rfl | he'
        · rw [hsd]; exact hlt
        · exact hpre e he'
    · have hm : m ≤ calculate_distance lat lon slat slon := not_lt.mp h
      have step : find_closest_aux lat lon ((st, slat, slon) :: rest)
          (some (s0, m)) = find_closest_aux lat lon rest (some (s0, m)) := by
        simp [find_closest_aux, h]
      rcases ih s0 m with
        ⟨heq, hall⟩ | ⟨pre, mid, post, hl, heq, hlt, hpre, hpost⟩
      · refine Or.inl ⟨step.trans heq, ?_⟩
        intro e he
        rcases List.mem_cons.mp he with rfl | he'
        · rw [hsd]; exact hm
        · exact hall e he'
      · refine Or.inr ⟨(st, slat, slon) :: pre, mid, post, by simp [hl],
          step.trans heq, hlt, ?_, hpost⟩
        intro e he
        rcases List.mem_cons.mp he with rfl | he'
        · rw [hsd]
          exact lt_of_lt_of_le hlt hm
        · exact hpre e he'

/-- Claim C1: for every query coordinate pair and every non-empty station
index, `find_closest_metro_station` returns the name of a station whose
Haversine distance (mean Earth radius 6371 km) to the query point is
less than or equal to the distance to every other indexed station, and
among equidistant stations the first in iteration order wins (every
station listed before the winner is strictly farther). -/
theorem find_closest_metro_station_nearest
    (stations : List (String × ℝ × ℝ)) (lat lon : ℝ)
    (h : stations ≠ []) :
    ∃ pre best post, stations = pre ++ best :: post ∧
      find_closest_metro_station stations lat lon = some best.1 ∧
      (∀ e ∈ stations,
        station_distance lat lon best ≤ station_distance lat lon e) ∧
      (∀ e ∈ pre,
        station_distance lat lon best < station_distance lat lon e) := by
  match stations, h with
  | (st, slat, slon) :: rest, _ =>
    have hsd : station_distance lat lon (st, slat, slon) =
        calculate_distance lat lon slat slon := rfl
    have step : find_closest_aux lat lon ((st, slat, slon) :: rest) none =
        find_closest_aux lat lon rest
          (some (st, calculate_distance lat lon slat slon)) := by
      simp [find_closest_aux]
    rcases find_closest_aux_some_spec lat lon rest st
        (calculate_distance lat lon slat slon) with
      ⟨heq, hall⟩ | ⟨pre, mid, post, hl, heq, hlt, hpre, hpost⟩
    · refine ⟨[], (st, slat, slon), rest, by simp, ?_, ?_, by simp⟩
      · simp [find_closest_metro_station, step, heq]
      · intro e he
        rcases List.mem_cons.mp he with rfl | he'
        · exact le_refl _
        · rw [hsd]
          exact hall e he'
    · refine ⟨(st, slat, slon) :: pre, mid, post, by simp [hl], ?_, ?_, ?_⟩
      · simp [find_closest_metro_station, step, heq]
      · intro e he
        rcases List.mem_cons.mp he with rfl | he'
        · rw [hsd]
          exact le_of_lt hlt
        · rw [hl] at he'
          rcases List.mem_append.mp he' with hp | hmp
          · exact le_of_lt (hpre e hp)
          · rcases List.mem_cons.mp hmp with rfl | hq
            · exact le_refl _
            · exact hpost e hq
      · intro e he
        rcases List.mem_cons.mp he with rfl | he'
        · rw [hsd]
          exact hlt
        · exact hpre e he'

/-- Witness for claim C1 at a concrete one-station index and query. -/
theorem find_closest_metro_station_nearest_witness :
    (([("Centrum", (52.2297 : ℝ), (21.0122 : ℝ))] :
        List (String × ℝ × ℝ)) ≠ []) ∧
    (∃ pre best post,
      ([("Centrum", (52.2297 : ℝ), (21.0122 : ℝ))] :
        List (String × ℝ × ℝ)) = pre ++ best :: post ∧
      find_closest_metro_station [("Centrum", 52.2297, 21.0122)] 52 21 =
        some best.1 ∧
      (∀ e ∈ ([("Centrum", (52.2297 : ℝ), (21.0122 : ℝ))] :
          List (String × ℝ × ℝ)),
        station_distance 52 21 best ≤ station_distance 52 21 e) ∧
      (∀ e ∈ pre,
        station_distance 52 21 best < station_distance 52 21 e)) :=
  ⟨by simp,
    find_closest_metro_station_nearest
      [("Centrum", 52.2297, 21.0122)] 52 21 (by simp)⟩

/-! ### The proximity threshold (claims C2, C9) -/

/-- On a one-station index the scan returns that station's name. -/
theorem find_closest_singleton (name : String) (slat slon lat lon : ℝ) :
    find_closest_metro_station [(name, slat, slon)] lat lon = some name :=
  rfl

/-- Claim C2: whenever `should_process_offer` returns, its boolean is
`true` if and only if the distance it computed to the closest station's
looked-up coordinates is `≤ 1.0` km; in particular the boundary
`distance = 1.0` yields `true`. -/
theorem should_process_offer_threshold
    (stations : List (String × ℝ × ℝ)) (lat lon : ℝ) (b : Bool)
    (st : String) (slat slon : ℝ)
    (h : should_process_offer stations lat lon = .ok (b, st, slat, slon)) :
    b = true ↔ calculate_distance lat lon slat slon ≤ 1 := by
  unfold should_process_offer at h
  split at h
  · exact absurd h (by simp)
  · split at h
    · exact absurd h (by simp)
    · simp only [Except.ok.injEq, Prod.mk.injEq] at h
      obtain ⟨hb, -, h1, h2⟩ := h
      subst hb h1 h2
      simp

/-- Evaluation of `should_process_offer` at a query placed exactly on the
single indexed station: distance `0`, threshold met. -/
theorem should_process_offer_origin :
    should_process_offer [("Centrum", 0, 0)] 0 0 =
      .ok (true, "Centrum", 0, 0) := by
  have hd : calculate_distance 0 0 0 0 = 0 := calculate_distance_self 0 0
  simp [should_process_offer, find_closest_metro_station, find_closest_aux,
    lookup_station, hd]

/-- Evaluation of `should_process_offer` at a query antipodal in longitude
to the single indexed station: distance `6371 π > 1`, threshold missed. -/
theorem should_process_offer_far :
    should_process_offer [("Centrum", 0, 0)] 0 180 =
      .ok (false, "Centrum", 0, 0) := by
  simp [should_process_offer, find_closest_metro_station, find_closest_aux,
    lookup_station, calculate_distance_antipodal_gt]

/-- Witness for claim C2 at a concrete index and query on the boundaryward
side of the threshold. -/
theorem should_process_offer_threshold_witness :
    should_process_offer [("Centrum", 0, 0)] 0 0 =
      .ok (true, "Centrum", 0, 0) ∧
    (true = true ↔ calculate_distance 0 0 0 0 ≤ 1) :=
  ⟨should_process_offer_origin,
    should_process_offer_threshold [("Centrum", 0, 0)] 0 0 true "Centrum" 0 0
      should_process_offer_origin⟩

/-- Counterexample to claim C9 as stated: on an empty station index the
nearest-station query `find_closest_metro_station` does not raise — it
returns Python's `None` (the silent default of its scan), so a
non-error result for an empty index does exist. -/
theorem find_closest_metro_station_empty_counterexample :
    find_closest_metro_station [] 0 0 = none :=
  rfl

/-- Claim C9 as amended: on an empty station index the nearest-station
query itself returns the silent default `None`; the failure surfaces
immediately afterwards in `should_process_offer`, whose coordinate
lookup `warsaw_metro_stations[None]` raises a `KeyError`, so the
threshold check has no non-error result for an empty index. -/
theorem should_process_offer_empty_index (lat lon : ℝ) :
    should_process_offer [] lat lon = .error "KeyError" :=
  rfl

/-! ### The cost invariant (claim C5) -/

/-- Claim C5: every `NormalizedOffer` that `extract_offer_data` returns
satisfies `total_cost = base_cost + rent` exactly (stated without
hypotheses via `Option.map` over the extraction outcome). -/
theorem extract_offer_data_total_cost
    (stations : List (String × ℝ × ℝ)) (pf : String → Option ℝ)
    (summ : String → String × String × String) (travel : TravelOutcome)
    (ad : Ad) :
    ((extract_offer_data stations pf summ travel ad).1.toOption.map
        (fun r => r.total_cost)) =
    ((extract_offer_data stations pf summ travel ad).1.toOption.map
        (fun r => r.base_cost + r.rent)) := by
  unfold extract_offer_data
  dsimp only
  repeat' split
  all_goals rfl

/-! ### Independent provider failure (claim C7) -/

/-- Whether extraction aborts does not depend on the travel-provider
outcome: the error paths are the empty index and the cost fields only. -/
theorem extract_offer_data_ok_independent_of_travel
    (stations : List (String × ℝ × ℝ)) (pf : String → Option ℝ)
    (summ : String → String × String × String) (ad : Ad)
    (travel travel' : TravelOutcome) :
    (extract_offer_data stations pf summ travel ad).1.toOption.isSome =
    (extract_offer_data stations pf summ travel' ad).1.toOption.isSome := by
  unfold extract_offer_data
  dsimp only
  repeat' split
  all_goals rfl

/-- Claim C7: when the transit leg returns a non-success status while the
walking leg succeeds, only the transit field degrades —
`get_travel_times` yields the walking duration together with `"N/A"` —
and enrichment failure never aborts extraction of the base record
(whether extraction succeeds is independent of the travel outcome). -/
theorem get_travel_times_partial_failure (wd ts td : String)
    (hts : ts ≠ "OK") (stations : List (String × ℝ × ℝ))
    (pf : String → Option ℝ) (summ : String → String × String × String)
    (ad : Ad) (travel' : TravelOutcome) :
    get_travel_times (.ok "OK" wd ts td) = (wd, "N/A") ∧
    ((extract_offer_data stations pf summ (.ok "OK" wd ts td) ad).1.toOption.isSome =
      (extract_offer_data stations pf summ travel' ad).1.toOption.isSome) := by
  refine ⟨?_, extract_offer_data_ok_independent_of_travel _ _ _ _ _ _⟩
  simp [get_travel_times, hts]

/-- Witness for claim C7 at a concrete failed transit status and offer. -/
theorem get_travel_times_partial_failure_witness :
    ("ZERO_RESULTS" : String) ≠ "OK" ∧
    (get_travel_times (.ok "OK" "7 mins" "ZERO_RESULTS" "12 mins") =
        ("7 mins", "N/A") ∧
      ((extract_offer_data cexStations cexPyFloat cexSummarize
          (.ok "OK" "7 mins" "ZERO_RESULTS" "12 mins") cexAd).1.toOption.isSome =
        (extract_offer_data cexStations cexPyFloat cexSummarize
          .exn cexAd).1.toOption.isSome)) :=
  ⟨by decide,
    get_travel_times_partial_failure "7 mins" "ZERO_RESULTS" "12 mins"
      (by decide) cexStations cexPyFloat cexSummarize cexAd .exn⟩

/-! ### Cost-avoidance outside the threshold (claim C4) -/

/-- Claim C4: for an offer whose threshold check comes back `false`
(distance to the nearest station above 1 km), no enrichment provider is
invoked (both instrumentation flags are `false` and the outcome is
independent of both provider parameters) and all five enrichment fields
of any returned record equal `"N/A"`. -/
theorem extract_offer_data_skips_enrichment
    (stations : List (String × ℝ × ℝ)) (pf : String → Option ℝ)
    (summ : String → String × String × String) (travel : TravelOutcome)
    (ad : Ad) (st : String) (slat slon : ℝ)
    (h : should_process_offer stations ad.location.coordinates.latitude
        ad.location.coordinates.longitude = .ok (false, st, slat, slon)) :
    (extract_offer_data stations pf summ travel ad).2 = (false, false) ∧
    (∀ r, (extract_offer_data stations pf summ travel ad).1 = .ok r →
      r.walking_time = "N/A" ∧ r.transit_time = "N/A" ∧
      r.available_from = "N/A" ∧ r.total_monthly_cost = "N/A" ∧
      r.key_advantages = "N/A") ∧
    (∀ (travel' : TravelOutcome)
        (summ' : String → String × String × String),
      extract_offer_data stations pf summ' travel' ad =
        extract_offer_data stations pf summ travel ad) := by
  refine ⟨?_, ?_, ?_⟩
  · simp [extract_offer_data, h]
  · intro r hr
    simp only [extract_offer_data, h, Bool.false_eq_true, if_false] at hr
    split at hr
    · split at hr
      · simp only [Except.ok.injEq] at hr
        subst hr
        exact ⟨rfl, rfl, rfl, rfl, rfl⟩
      · exact absurd hr (by simp)
    · exact absurd hr (by simp)
  · intro travel' summ'
    simp [extract_offer_data, h]

/-- Witness for claim C4 at a concrete offer antipodal to the station. -/
theorem extract_offer_data_skips_enrichment_witness :
    should_process_offer cexStations
        cexFarAd.location.coordinates.latitude
        cexFarAd.location.coordinates.longitude =
      .ok (false, "Centrum", 0, 0) ∧
    ((extract_offer_data cexStations cexPyFloat cexSummarize .exn
        cexFarAd).2 = (false, false) ∧
     (∀ r, (extract_offer_data cexStations cexPyFloat cexSummarize .exn
          cexFarAd).1 = .ok r →
        r.walking_time = "N/A" ∧ r.transit_time = "N/A" ∧
        r.available_from = "N/A" ∧ r.total_monthly_cost = "N/A" ∧
        r.key_advantages = "N/A") ∧
     (∀ (travel' : TravelOutcome)
         (summ' : String → String × String × String),
       extract_offer_data cexStations cexPyFloat summ' travel' cexFarAd =
         extract_offer_data cexStations cexPyFloat cexSummarize .exn
           cexFarAd)) :=
  ⟨should_process_offer_far,
    extract_offer_data_skips_enrichment cexStations cexPyFloat cexSummarize
      .exn cexFarAd "Centrum" 0 0 should_process_offer_far⟩

/-! ### Enrichment inside the threshold (claim C6) -/

/-- Concrete evaluation of the extractor on the near offer `cexAd` when
the walking leg fails and the transit leg succeeds. -/
theorem extract_near_walkfail_eval :
    extract_offer_data cexStations cexPyFloat cexSummarize
      (.ok "ZERO_RESULTS" "7 mins" "OK" "12 mins") cexAd =
    (.ok cexNearRecordWalkFail, true, false) := by
  simp only [extract_offer_data, cexStations, cexAd, cexPyFloat,
    should_process_offer_origin]
  rfl

/-- Concrete evaluation of the extractor on the near offer `cexAd` when
both travel legs succeed. -/
theorem extract_near_allok_eval :
    extract_offer_data cexStations cexPyFloat cexSummarize
      (.ok "OK" "7 mins" "OK" "12 mins") cexAd =
    (.ok cexNearRecordOK, true, false) := by
  simp only [extract_offer_data, cexStations, cexAd, cexPyFloat,
    should_process_offer_origin]
  rfl

/-- Counterexample to claim C6 as stated: for a concrete offer within the
threshold the summarisation provider is not invoked (its instrumentation
flag stays `false`) and the summary fields are not populated from its
result — `available_from` is the hard-coded `"N/A"` sentinel although the
provider would have returned `"May 1st"` for this very description. -/
theorem summarizer_bypassed_counterexample :
    (extract_offer_data cexStations cexPyFloat cexSummarize
        (.ok "OK" "7 mins" "OK" "12 mins") cexAd).2.2 = false ∧
    (extract_offer_data cexStations cexPyFloat cexSummarize
        (.ok "OK" "7 mins" "OK" "12 mins") cexAd).1 = .ok cexNearRecordOK ∧
    cexNearRecordOK.available_from = "N/A" ∧
    (cexSummarize cexNearRecordOK.description).1 = "May 1st" := by
  rw [extract_near_allok_eval]
  exact ⟨rfl, rfl, rfl, rfl⟩

/-- Claim C6 as amended: for an offer whose threshold check comes back
`true`, `extract_offer_data` invokes the travel-time provider (its flag
is `true`) and populates `walking_time` / `transit_time` from its
result, but the text-summarisation provider is never invoked — the
source comments out the LLM call and hard-codes the `"N/A"` sentinel
into `available_from`, `total_monthly_cost` and `key_advantages`. -/
theorem extract_offer_data_enrichment_when_near
    (stations : List (String × ℝ × ℝ)) (pf : String → Option ℝ)
    (summ : String → String × String × String) (travel : TravelOutcome)
    (ad : Ad) (st : String) (slat slon : ℝ)
    (h : should_process_offer stations ad.location.coordinates.latitude
        ad.location.coordinates.longitude = .ok (true, st, slat, slon)) :
    (extract_offer_data stations pf summ travel ad).2.1 = true ∧
    (extract_offer_data stations pf summ travel ad).2.2 = false ∧
    (∀ r, (extract_offer_data stations pf summ travel ad).1 = .ok r →
      r.walking_time = (get_travel_times travel).1 ∧
      r.transit_time = (get_travel_times travel).2 ∧
      r.available_from = "N/A" ∧ r.total_monthly_cost = "N/A" ∧
      r.key_advantages = "N/A") := by
  refine ⟨?_, ?_, ?_⟩
  · simp [extract_offer_data, h]
  · simp [extract_offer_data, h]
  · intro r hr
    simp only [extract_offer_data, h, if_true] at hr
    split at hr
    · split at hr
      · simp only [Except.ok.injEq] at hr
        subst hr
        exact ⟨rfl, rfl, rfl, rfl, rfl⟩
      · exact absurd hr (by simp)
    · exact absurd hr (by simp)

/-- Witness for the amended claim C6 at the concrete near offer. -/
theorem extract_offer_data_enrichment_when_near_witness :
    should_process_offer cexStations
        cexAd.location.coordinates.latitude
        cexAd.location.coordinates.longitude =
      .ok (true, "Centrum", 0, 0) ∧
    ((extract_offer_data cexStations cexPyFloat cexSummarize
        (.ok "OK" "7 mins" "OK" "12 mins") cexAd).2.1 = true ∧
     (extract_offer_data cexStations cexPyFloat cexSummarize
        (.ok "OK" "7 mins" "OK" "12 mins") cexAd).2.2 = false ∧
     (∀ r, (extract_offer_data cexStations cexPyFloat cexSummarize
          (.ok "OK" "7 mins" "OK" "12 mins") cexAd).1 = .ok r →
       r.walking_time =
         (get_travel_times (.ok "OK" "7 mins" "OK" "12 mins")).1 ∧
       r.transit_time =
         (get_travel_times (.ok "OK" "7 mins" "OK" "12 mins")).2 ∧
       r.available_from = "N/A" ∧ r.total_monthly_cost = "N/A" ∧
       r.key_advantages = "N/A")) :=
  ⟨should_process_offer_origin,
    extract_offer_data_enrichment_when_near cexStations cexPyFloat
      cexSummarize (.ok "OK" "7 mins" "OK" "12 mins") cexAd "Centrum" 0 0
      should_process_offer_origin⟩

/-! ### The sink status marker (claims C3, C10) -/

/-- Counterexample to claim C3 as stated: a concrete offer at distance 0
from its nearest station (well within the 1 km threshold) whose walking
lookup failed is appended with status marker `"RED"`, so the marker is
not `"GREEN"` exactly for offers within the threshold. -/
theorem proximity_marker_counterexample :
    ((extract_offer_data cexStations cexPyFloat cexSummarize
        (.ok "ZERO_RESULTS" "7 mins" "OK" "12 mins") cexAd).1.toOption.map
      sink_status) = some "RED" ∧
    calculate_distance cexAd.location.coordinates.latitude
      cexAd.location.coordinates.longitude 0 0 ≤ 1 := by
  constructor
  · rw [extract_near_walkfail_eval]
    rfl
  · show calculate_distance 0 0 0 0 ≤ 1
    rw [calculate_distance_self]
    norm_num

/-- Claim C3 as amended: `save_to_sheets` appends exactly one row for the
record, and the two-valued status marker in its first column is derived
from the record's `walking_time` field — `"GREEN"` iff
`walking_time ≠ "N/A"` (which coincides with the proximity threshold
only when the walking-time lookup succeeded), `"RED"` otherwise. -/
theorem save_to_sheets_status_marker (data : NormalizedOffer)
    (sheet : List SheetRow) :
    save_to_sheets data sheet = sheet ++ [sheet_row_of data] ∧
    ((sheet_row_of data).status = "GREEN" ↔ data.walking_time ≠ "N/A") := by
  constructor
  · rfl
  · by_cases hw : data.walking_time = "N/A"
    · simp [sheet_row_of, sink_status, hw]
    · simp [sheet_row_of, sink_status, hw]

/-- Claim C10: the status marker equals `"GREEN"` exactly when the
record's `walking_time` differs from `"N/A"`; consequently every offer
processed with a failed walking lookup — including offers that meet the
proximity threshold — is appended with marker `"RED"`. -/
theorem sink_status_from_walking_time :
    (∀ d : NormalizedOffer,
      sink_status d = "GREEN" ↔ d.walking_time ≠ "N/A") ∧
    (∀ (stations : List (String × ℝ × ℝ)) (pf : String → Option ℝ)
        (summ : String → String × String × String) (ws wd ts td : String)
        (ad : Ad) (r : NormalizedOffer),
      ws ≠ "OK" →
      (extract_offer_data stations pf summ (.ok ws wd ts td) ad).1 = .ok r →
      sink_status r = "RED") := by
  constructor
  · intro d
    by_cases hw : d.walking_time = "N/A"
    · simp [sink_status, hw]
    · simp [sink_status, hw]
  · intro stations pf summ ws wd ts td ad r hws hr
    simp only [extract_offer_data] at hr
    split at hr
    · exact absurd hr (by simp)
    · split at hr
      · split at hr
        · simp only [Except.ok.injEq] at hr
          subst hr
          simp [sink_status, apply_ite (fun p : String × String => p.1),
            get_travel_times, hws]
        · exact absurd hr (by simp)
      · exact absurd hr (by simp)

/-- Witness for claim C10 at the concrete near offer with failed walking
leg: its record is within the threshold, yet marked `"RED"`. -/
theorem sink_status_from_walking_time_witness :
    (sink_status cexNearRecordWalkFail = "GREEN" ↔
      cexNearRecordWalkFail.walking_time ≠ "N/A") ∧
    ("ZERO_RESULTS" : String) ≠ "OK" ∧
    (extract_offer_data cexStations cexPyFloat cexSummarize
        (.ok "ZERO_RESULTS" "7 mins" "OK" "12 mins") cexAd).1 =
      .ok cexNearRecordWalkFail ∧
    sink_status cexNearRecordWalkFail = "RED" := by
  have hextr : (extract_offer_data cexStations cexPyFloat cexSummarize
      (.ok "ZERO_RESULTS" "7 mins" "OK" "12 mins") cexAd).1 =
      .ok cexNearRecordWalkFail := by
    rw [extract_near_walkfail_eval]
  exact ⟨sink_status_from_walking_time.1 cexNearRecordWalkFail,
    by decide, hextr,
    sink_status_from_walking_time.2 cexStations cexPyFloat cexSummarize
      "ZERO_RESULTS" "7 mins" "OK" "12 mins" cexAd cexNearRecordWalkFail
      (by decide) hextr⟩

/-! ### Sink deduplication (claim C8) -/

/-- Appending a record adds exactly its stringified id to the identifier
column recorded by a successful read. -/
theorem get_existing_offers_append (d : NormalizedOffer)
    (sheet : List SheetRow) :
    get_existing_offers (save_to_sheets d sheet) .ok =
      get_existing_offers sheet .ok ++ [toString d.offer_id] := by
  simp [get_existing_offers, save_to_sheets, sheet_row_of]

/-- Running the per-offer pass over a batch of records whose stringified
ids are pairwise distinct and not yet recorded keeps the identifier
column seen by a successful read duplicate-free. -/
theorem existing_offers_nodup_after_run (recs : List NormalizedOffer) :
    ∀ sheet : List SheetRow,
      (get_existing_offers sheet .ok).Nodup →
      (recs.map (fun r => toString r.offer_id)).Nodup →
      (∀ r ∈ recs, toString r.offer_id ∉ get_existing_offers sheet .ok) →
      (get_existing_offers
        (recs.foldl (fun s r => save_to_sheets r s) sheet) .ok).Nodup := by
  induction recs with
  | nil =>
    intro sheet h1 _ _
    simpa using h1
  | cons r rest ih =>
    intro sheet h1 h2 h3
    simp only [List.map_cons, List.nodup_cons] at h2
    simp only [List.foldl_cons]
    apply ih (save_to_sheets r sheet)
    · rw [get_existing_offers_append]
      simp only [List.nodup_append, List.nodup_cons, List.not_mem_nil,
        not_false_eq_true, List.nodup_nil, and_true, true_and, h1]
      intro a ha hmem
      rcases List.mem_singleton.mp hmem with rfl
      exact h3 r (List.mem_cons_self r rest) ha
    · exact h2.2
    · intro r' hr'
      rw [get_existing_offers_append]
      simp only [List.mem_append, List.mem_singleton]
      push_neg
      refine ⟨h3 r' (List.mem_cons_of_mem r hr'), ?_⟩
      intro hEq
      exact h2.1 (hEq ▸ List.mem_map_of_mem (fun x => toString x.offer_id) hr')

/-- Counterexample to claim C8 as stated: the sink already holds the
successfully appended record with offer id 1, yet a re-run of discovery
whose spreadsheet read raises — the `except` path of
`get_existing_offers` returns the empty set — emits the slug of a search
offer carrying that same identifier 1, and the second append that
follows leaves two sink rows with offer id 1. -/
theorem dedup_disabled_counterexample :
    "offer-a" ∈ fetch_offers_list [⟨1, "offer-a"⟩]
      (save_to_sheets sinkRecordA []) .exn ∧
    (⟨1, "offer-a"⟩ : SearchOffer).id = sinkRecordA.offer_id ∧
    ((save_to_sheets sinkRecordA (save_to_sheets sinkRecordA [])).map
        (fun row => row.offer_id)) = [1, 1] := by
  refine ⟨?_, rfl, rfl⟩
  simp [fetch_offers_list, new_offers, get_existing_offers]

/-- Claim C8 as amended: provided the discovery-time spreadsheet read
succeeds, after a record with identifier X is appended by
`save_to_sheets` every search offer carrying X is excluded from the
deduplicated batch that feeds the emitted work list, and appending the
records of a freshly deduplicated batch (pairwise-distinct, not yet
recorded ids) never produces two sink rows with the same offer id.
When the read fails — missing `SPREADSHEET_ID` or a raised exception —
`get_existing_offers` returns the empty set and deduplication is
silently disabled: nothing at all is excluded. -/
theorem discovery_excludes_appended :
    (∀ (data : NormalizedOffer) (sheet : List SheetRow)
        (offers : List SearchOffer) (o : SearchOffer),
      o ∈ new_offers offers (save_to_sheets data sheet) .ok →
      o.id ≠ data.offer_id) ∧
    (∀ (recs : List NormalizedOffer) (sheet : List SheetRow),
      (get_existing_offers sheet .ok).Nodup →
      (recs.map (fun r => toString r.offer_id)).Nodup →
      (∀ r ∈ recs, toString r.offer_id ∉ get_existing_offers sheet .ok) →
      ((recs.foldl (fun s r => save_to_sheets r s) sheet).map
          (fun row => row.offer_id)).Nodup) ∧
    (∀ (offers : List SearchOffer) (sheet : List SheetRow),
      new_offers offers sheet .missingConfig = offers ∧
      new_offers offers sheet .exn = offers) := by
  refine ⟨?_, ?_, ?_⟩
  · intro data sheet offers o ho hEq
    rcases List.mem_filter.mp ho with ⟨-, hpred⟩
    simp at hpred
    apply hpred
    rw [hEq, get_existing_offers_append]
    simp
  · intro recs sheet h1 h2 h3
    have hstr := existing_offers_nodup_after_run recs sheet h1 h2 h3
    have hrw : get_existing_offers
        (recs.foldl (fun s r => save_to_sheets r s) sheet) .ok =
        ((recs.foldl (fun s r => save_to_sheets r s) sheet).map
          (fun row => row.offer_id)).map toString := by
      rw [List.map_map]
      rfl
    rw [hrw] at hstr
    exact hstr.of_map
  · intro offers sheet
    constructor <;> simp [new_offers, get_existing_offers]

/-- Witness for the amended claim C8 at a concrete sheet, batch and
record. -/
theorem discovery_excludes_appended_witness :
    ((⟨2, "offer-b"⟩ : SearchOffer) ∈
      new_offers [⟨2, "offer-b"⟩] (save_to_sheets sinkRecordA []) .ok ∧
     (⟨2, "offer-b"⟩ : SearchOffer).id ≠ sinkRecordA.offer_id) ∧
    ((get_existing_offers ([] : List SheetRow) .ok).Nodup ∧
     (([sinkRecordA] : List NormalizedOffer).map
        (fun r => toString r.offer_id)).Nodup ∧
     (∀ r ∈ ([sinkRecordA] : List NormalizedOffer),
        toString r.offer_id ∉ get_existing_offers ([] : List SheetRow) .ok) ∧
     ((([sinkRecordA] : List NormalizedOffer).foldl
          (fun s r => save_to_sheets r s) []).map
        (fun row => row.offer_id)).Nodup) ∧
    (new_offers [⟨2, "offer-b"⟩] [] .missingConfig = [⟨2, "offer-b"⟩] ∧
     new_offers [⟨2, "offer-b"⟩] [] .exn = [⟨2, "offer-b"⟩]) := by
  have hmem : (⟨2, "offer-b"⟩ : SearchOffer) ∈
      new_offers [⟨2, "offer-b"⟩] (save_to_sheets sinkRecordA []) .ok := by
    simp [new_offers, get_existing_offers, save_to_sheets, sheet_row_of,
      sinkRecordA]
    decide
  have h1 : (get_existing_offers ([] : List SheetRow) .ok).Nodup := by
    simp [get_existing_offers]
  have h2 : (([sinkRecordA] : List NormalizedOffer).map
      (fun r => toString r.offer_id)).Nodup := by
    simp
  have h3 : ∀ r ∈ ([sinkRecordA] : List NormalizedOffer),
      toString r.offer_id ∉ get_existing_offers ([] : List SheetRow) .ok := by
    simp [get_existing_offers]
  exact ⟨⟨hmem,
      discovery_excludes_appended.1 sinkRecordA [] [⟨2, "offer-b"⟩]
        ⟨2, "offer-b"⟩ hmem⟩,
    ⟨h1, h2, h3,
      discovery_excludes_appended.2.1 [sinkRecordA] [] h1 h2 h3⟩,
    discovery_excludes_appended.2.2 [⟨2, "offer-b"⟩] []⟩

end FindMeNest
